/-
Verification of the deface face-anonymization pipeline (deface/deface.py).

The Python source is shallowly embedded below: pure geometry (scale_bb, the
clipping step of anonymize_frame) becomes exact rational/integer arithmetic,
frames become rectangular lists of pixels mutated functionally, fallible
OpenCV calls become Except values, and the streaming / batch drivers become
explicit state-passing interpreters over scripts of externally-determined
events (detector results, write results, key presses).
-/
import Mathlib

namespace Deface

/-- Round half to even, the rounding used by numpy's np.round (line 30 of
deface.py rounds the scaled box with np.round before casting to int). -/
def rnde (q : ℚ) : ℤ :=
  if q - ⌊q⌋ < 1/2 then ⌊q⌋
  else if q - ⌊q⌋ > 1/2 then ⌊q⌋ + 1
  else if ⌊q⌋ % 2 = 0 then ⌊q⌋ else ⌊q⌋ + 1

/-- Truncation toward zero, the conversion performed by numpy's astype(int)
on the raw float detection box (line 71 of deface.py). -/
def npTrunc (q : ℚ) : ℤ := if 0 ≤ q then ⌊q⌋ else -⌊-q⌋

/-- A bounding box in pixel coordinates, in the (x1, y1, x2, y2) order used
throughout deface.py. -/
structure BB where
  x1 : ℤ
  y1 : ℤ
  x2 : ℤ
  y2 : ℤ
deriving DecidableEq, Repr

/-- Embedding of scale_bb (deface.py lines 23-30): expand the box about its
center by (mask_scale - 1) times its height/width, then round each
coordinate with np.round.  The source computes h and w from the original
coordinates before updating any of them, which the let-sequence mirrors. -/
def scale_bb (x1 y1 x2 y2 : ℚ) (mask_scale : ℚ) : BB :=
  let s := mask_scale - 1
  let h := y2 - y1
  let w := x2 - x1
  let y1s := y1 - h * s
  let y2s := y2 + h * s
  let x1s := x1 - w * s
  let x2s := x2 + w * s
  ⟨rnde x1s, rnde y1s, rnde x2s, rnde y2s⟩

/-- Embedding of the per-detection region computation of anonymize_frame
(deface.py lines 71-75): scale the integer box, then clip y to
[0, H-1] and x to [0, W-1] exactly as the source does — x1/y1 are only
clamped from below and x2/y2 only from above. -/
def det_region (H W : ℕ) (x1 y1 x2 y2 : ℤ) (m : ℚ) : BB :=
  let b := scale_bb (x1 : ℚ) (y1 : ℚ) (x2 : ℚ) (y2 : ℚ) m
  ⟨max 0 b.x1, max 0 b.y1, min ((W : ℤ) - 1) b.x2, min ((H : ℤ) - 1) b.y2⟩

lemma rnde_abs_le (q : ℚ) : |(rnde q : ℚ) - q| ≤ 1/2 := by
  have h0 : (⌊q⌋ : ℚ) ≤ q := Int.floor_le q
  have h1 : q < ⌊q⌋ + 1 := Int.lt_floor_add_one q
  unfold rnde
  split_ifs with hc hd he <;>
    (rw [abs_le]; constructor <;> (push_cast; linarith))

lemma rnde_le_of_le (q : ℚ) (n : ℤ) (h : q ≤ n) : rnde q ≤ n := by
  have habs := rnde_abs_le q
  rw [abs_le] at habs
  have h3 : (rnde q : ℚ) < (n : ℚ) + 1 := by linarith [habs.2]
  have h4 : rnde q < n + 1 := by exact_mod_cast h3
  omega

lemma le_rnde_of_le (q : ℚ) (n : ℤ) (h : (n : ℚ) ≤ q) : n ≤ rnde q := by
  have habs := rnde_abs_le q
  rw [abs_le] at habs
  have h3 : (n : ℚ) - 1 < (rnde q : ℚ) := by linarith [habs.1]
  have h4 : n - 1 < rnde q := by exact_mod_cast h3
  omega

lemma rnde_eq (q : ℚ) (n : ℤ) (h1 : (n : ℚ) - 1/2 < q) (h2 : q < (n : ℚ) + 1/2) :
    rnde q = n := by
  have habs := rnde_abs_le q
  rw [abs_le] at habs
  have l1 : (n : ℚ) - 1 < (rnde q : ℚ) := by linarith
  have l2 : (rnde q : ℚ) < (n : ℚ) + 1 := by linarith
  have i1 : n - 1 < rnde q := by exact_mod_cast l1
  have i2 : rnde q < n + 1 := by exact_mod_cast l2
  omega

lemma rnde_intCast (n : ℤ) : rnde (n : ℚ) = n := by
  have habs := rnde_abs_le (n : ℚ)
  rw [abs_le] at habs
  have h3 : (n : ℚ) - 1 < (rnde (n : ℚ) : ℚ) ∧ (rnde (n : ℚ) : ℚ) < (n : ℚ) + 1 := by
    constructor <;> linarith [habs.1, habs.2]
  have h4 : n - 1 < rnde (n : ℚ) := by exact_mod_cast h3.1
  have h5 : rnde (n : ℚ) < n + 1 := by exact_mod_cast h3.2
  omega

/-! ## Frames and pixel-level primitives -/

/-- One pixel (three channel values, as in the H x W x 3 numpy frames). -/
abbrev Pix := ℕ × ℕ × ℕ

/-- A frame: a rectangular grid of pixels, row major, as numpy stores it
(frame.shape[0] rows, frame.shape[1] columns). -/
abbrev Frame := List (List Pix)

/-- frame.shape[0] (number of rows). -/
def frameH (f : Frame) : ℕ := f.length

/-- frame.shape[1] (number of columns, read off the first row). -/
def frameW (f : Frame) : ℕ :=
  match f with
  | [] => 0
  | row :: _ => row.length

/-- List map carrying an explicit running index, used to express
positional pixel updates. -/
def mapIdxFrom {α β : Type} (g : ℕ → α → β) : ℕ → List α → List β
  | _, [] => []
  | i, a :: l => g i a :: mapIdxFrom g (i + 1) l

/-- Apply a position-dependent function to every pixel of a frame. -/
def mapPixels (g : ℕ → ℕ → Pix → Pix) (f : Frame) : Frame :=
  mapIdxFrom (fun r row => mapIdxFrom (fun c p => g r c p) 0 row) 0 f

/-- Pixel lookup: none when the position is outside the frame. -/
def getPx (f : Frame) (r c : ℕ) : Option Pix :=
  (f[r]?).bind (fun row => row[c]?)

/-- Pixel lookup with a default, for positions known to be in range. -/
def getPxD (f : Frame) (r c : ℕ) : Pix :=
  (f.getD r []).getD c (0, 0, 0)

/-- Normalize a (possibly negative) Python slice endpoint against a length:
negative endpoints count from the end, and endpoints are clamped to
[0, len], exactly as Python slicing does. -/
def pynorm (len : ℕ) (i : ℤ) : ℕ :=
  if i < 0 then ((len : ℤ) + i).toNat else min i.toNat len

/-- Python list slice l[a:b]. -/
def pyslice {α : Type} (l : List α) (a b : ℤ) : List α :=
  let s := pynorm l.length a
  let e := pynorm l.length b
  (l.drop s).take (e - s)

/-- numpy 2-D slice frame[y1:y2, x1:x2]. -/
def slice2d (f : Frame) (y1 y2 x1 x2 : ℤ) : Frame :=
  (pyslice f y1 y2).map (fun row => pyslice row x1 x2)

/-- Clamp an integer index into [0, n-1] (border replication used by the
box-filter model below). -/
def clampIdx (n : ℕ) (i : ℤ) : ℕ := (min (max 0 i) ((n : ℤ) - 1)).toNat

def pixAdd (a b : Pix) : Pix := (a.1 + b.1, a.2.1 + b.2.1, a.2.2 + b.2.2)

def pixDiv (a : Pix) (k : ℕ) : Pix := (a.1 / k, a.2.1 / k, a.2.2 / k)

/-- Sum of the kw x kh window of img anchored at its center over position
(r, c), with indices clamped to the image. -/
def windowSum (img : Frame) (r c : ℤ) (kw kh : ℕ) : Pix :=
  (List.range kh).foldl
    (fun acc dr =>
      (List.range kw).foldl
        (fun acc2 dc =>
          pixAdd acc2
            (getPxD img (clampIdx (frameH img) (r + dr - kh / 2))
              (clampIdx (frameW img) (c + dc - kw / 2))))
        acc)
    (0, 0, 0)

/-- Mean box filter over the whole image (kernel kw x kh). -/
def boxFilter (img : Frame) (kw kh : ℕ) : Frame :=
  mapPixels (fun r c _ => pixDiv (windowSum img (r : ℤ) (c : ℤ) kw kh) (kw * kh)) img

def blurKsizeErr : String :=
  "cv2.error: Assertion failed in cv2.blur, ksize components must be positive"

def blurEmptyErr : String :=
  "cv2.error: Assertion failed in cv2.blur, source ROI is empty"

/-- Model of cv2.blur (normalized box filter).  OpenCV asserts that both
kernel dimensions are positive and that the source is nonempty, which is
what makes deface.py line 44 raise when the clipped box is degenerate;
border extrapolation is modelled by index clamping (no claim below depends
on interior blurred values). -/
def cv2_blur (img : Frame) (kw kh : ℕ) : Except String Frame :=
  if kw = 0 ∨ kh = 0 then .error blurKsizeErr
  else if frameH img = 0 ∨ frameW img = 0 then .error blurEmptyErr
  else .ok (boxFilter img kw kh)

/-- Model of cv2.rectangle with thickness -1: opaquely fill the rectangle
spanned by the two (arbitrary-order) corners, both borders inclusive,
silently clipped to the frame. -/
def cv2_rectangle (f : Frame) (x1 y1 x2 y2 : ℤ) (color : Pix) : Frame :=
  mapPixels
    (fun r c p =>
      if min x1 x2 ≤ (c : ℤ) ∧ (c : ℤ) ≤ max x1 x2 ∧
         min y1 y2 ≤ (r : ℤ) ∧ (r : ℤ) ≤ max y1 y2 then color else p)
    f

/-- Write back into the region frame[y1:y2, x1:x2] through a function of
the region-relative coordinates (models the numpy region assignments on
lines 52-55 of deface.py). -/
def writeRegionWith (f : Frame) (y1 y2 x1 x2 : ℤ) (g : ℕ → ℕ → Pix → Pix) : Frame :=
  let ys := pynorm (frameH f) y1
  let ye := pynorm (frameH f) y2
  let xs := pynorm (frameW f) x1
  let xe := pynorm (frameW f) x2
  mapPixels
    (fun r c p =>
      if ys ≤ r ∧ r < ye ∧ xs ≤ c ∧ c < xe then g (r - ys) (c - xs) p else p)
    f

/-- The external text renderer behind cv2.putText (glyph rasterization is
an external collaborator; the embedding is parametric in it).  Arguments:
frame, detection index, score, text origin x and y. -/
abbrev PutText := Frame → ℕ → ℚ → ℤ → ℤ → Frame

/-- Embedding of draw_det (deface.py lines 33-62).  Mode solid fills the
rectangle via cv2.rectangle; mode blur box-filters the region slice with
kernel (|x2-x1|//2, |y2-y1|//2) — raising the OpenCV assertion error when a
kernel dimension is zero — and writes it back, restricted to the inscribed
ellipse of the region when the ellipse flag is set (skimage.draw.ellipse
with center and radii ((y2-y1)//2, (x2-x1)//2)); mode none (or any other
string) leaves the frame untouched.  If enumerate_dets is set the text
label is drawn at (x1, y1 - 20) after the redaction. -/
def draw_det (frame : Frame) (score : ℚ) (det_idx : ℕ) (x1 y1 x2 y2 : ℤ)
    (replacewith : String) (ellipse : Bool) (enumerate_dets : Bool)
    (ovcolor : Pix) (putText : PutText) : Except String Frame :=
  let redacted : Except String Frame :=
    if replacewith = "solid" then
      .ok (cv2_rectangle frame x1 y1 x2 y2 ovcolor)
    else if replacewith = "blur" then
      let kw := (x2 - x1).natAbs / 2
      let kh := (y2 - y1).natAbs / 2
      match cv2_blur (slice2d frame y1 y2 x1 x2) kw kh with
      | .error e => .error e
      | .ok blurred =>
        if ellipse then
          let cy := (y2 - y1).fdiv 2
          let cx := (x2 - x1).fdiv 2
          .ok (writeRegionWith frame y1 y2 x1 x2
            (fun dr dc p =>
              if ((dr : ℤ) - cy) ^ 2 * cx ^ 2 + ((dc : ℤ) - cx) ^ 2 * cy ^ 2 <
                 cy ^ 2 * cx ^ 2
              then getPxD blurred dr dc else p))
        else
          .ok (writeRegionWith frame y1 y2 x1 x2 (fun dr dc _ => getPxD blurred dr dc))
    else
      .ok frame
  match redacted with
  | .error e => .error e
  | .ok f => .ok (if enumerate_dets then putText f det_idx score x1 (y1 - 20) else f)

/-! ## FrameAnonymizer -/

/-- One detector output item: a raw (float) box and a confidence score,
the det[:4] / det[4] decomposition of line 70 of deface.py. -/
structure Detection where
  x1 : ℚ
  y1 : ℚ
  x2 : ℚ
  y2 : ℚ
  score : ℚ
deriving DecidableEq, Repr

/-- The loop body of anonymize_frame (deface.py lines 69-82), recursing
over the detection list with the running enumerate index: truncate the raw
box to int, scale and clip it (det_region), then hand it to draw_det with
the default black overlay color. -/
def anonymize_go (m : ℚ) (rw : String) (el : Bool) (en : Bool) (pt : PutText) :
    ℕ → List Detection → Frame → Except String Frame
  | _, [], frame => .ok frame
  | i, det :: rest, frame =>
    let x1 := npTrunc det.x1
    let y1 := npTrunc det.y1
    let x2 := npTrunc det.x2
    let y2 := npTrunc det.y2
    let b := det_region (frameH frame) (frameW frame) x1 y1 x2 y2 m
    match draw_det frame det.score i b.x1 b.y1 b.x2 b.y2 rw el en (0, 0, 0) pt with
    | .error e => .error e
    | .ok f => anonymize_go m rw el en pt (i + 1) rest f

/-- Embedding of anonymize_frame (deface.py lines 65-82). -/
def anonymize_frame (dets : List Detection) (frame : Frame) (mask_scale : ℚ)
    (replacewith : String) (ellipse : Bool) (enumerate_dets : Bool)
    (pt : PutText) : Except String Frame :=
  anonymize_go mask_scale replacewith ellipse enumerate_dets pt 0 dets frame

/-! ## Path handling (main, lines 236-240) -/

/-- Model of Python str.startswith. -/
def py_startswith (s pre : String) : Bool :=
  s.data.take pre.data.length == pre.data

/-- Model of os.path.splitext: split the extension at the last dot of the
path, provided that dot lies after the last separator and the characters
between the separator and the dot are not all dots. -/
def splitext (p : String) : String × String :=
  let cs := p.data
  let n : ℤ := cs.length
  let sepIdx : ℤ := n - 1 - cs.reverse.indexOf '/'
  let dotIdx : ℤ := n - 1 - cs.reverse.indexOf '.'
  if sepIdx < dotIdx ∧
     ((cs.drop (sepIdx + 1).toNat).take (dotIdx - sepIdx - 1).toNat).any
       (fun ch => ch ≠ '.')
  then (⟨cs.take dotIdx.toNat⟩, ⟨cs.drop dotIdx.toNat⟩)
  else (p, "")

/-- Line 236 of deface.py: camera inputs are those whose name starts with
the literal string <video. -/
def is_cam (ipath : String) : Bool := py_startswith ipath "<video"

/-- Lines 238-240 of deface.py: when no output was given and the input is
not a camera, derive the default output path by inserting _anonymized
before the extension; otherwise keep the given output (possibly none). -/
def derive_opath (ipath : String) (opath : Option String) (cam : Bool) :
    Option String :=
  if opath = none ∧ ¬ cam then
    some ((splitext ipath).1 ++ "_anonymized" ++ (splitext ipath).2)
  else opath

/-! ## StreamProcessor (video_detect, lines 89-152) -/

/-- The externally determined events of one loop iteration of
video_detect: whether the detector call returns normally, whether
writer.append_data returns normally (consulted only when a writer exists),
and whether the preview reported the quit key. -/
structure FrameEvent where
  detOk : Bool
  writeOk : Bool
  quitKey : Bool
deriving DecidableEq, Repr

/-- Observable outcome of one video_detect run: which handles were closed
when the call returned, whether the writer was ever opened, how many
frames were appended to it, and whether an exception propagated out. -/
structure VDResult where
  readerClosed : Bool
  writerOpened : Bool
  writerClosed : Bool
  barClosed : Bool
  framesWritten : ℕ
  raised : Bool
deriving DecidableEq, Repr

/-- The streaming loop of video_detect (deface.py lines 131-152).  Each
event is one iteration: a failing detector call or a failing frame write
raises, and the exception propagates past lines 149-152, so no handle is
closed; a quit keypress during preview breaks out to lines 149-152, which
close the reader, the writer when one was opened, and the progress bar, as
does normal exhaustion of the frame iterator. -/
def vd_loop (opath : Option String) (sh : Bool) :
    List FrameEvent → ℕ → VDResult
  | [], n =>
    { readerClosed := true, writerOpened := opath.isSome,
      writerClosed := opath.isSome, barClosed := true,
      framesWritten := n, raised := false }
  | e :: rest, n =>
    if e.detOk = false then
      { readerClosed := false, writerOpened := opath.isSome,
        writerClosed := false, barClosed := false,
        framesWritten := n, raised := true }
    else if opath.isSome ∧ e.writeOk = false then
      { readerClosed := false, writerOpened := opath.isSome,
        writerClosed := false, barClosed := false,
        framesWritten := n, raised := true }
    else
      let n2 := if opath.isSome then n + 1 else n
      if sh ∧ e.quitKey then
        { readerClosed := true, writerOpened := opath.isSome,
          writerClosed := opath.isSome, barClosed := true,
          framesWritten := n2, raised := false }
      else vd_loop opath sh rest n2

/-- Embedding of video_detect (deface.py lines 89-152).  openOk models
lines 102-111 (get_reader succeeding and its metadata carrying a size); on
failure the function prints and returns before any loop handle exists.  A
writer is opened exactly when opath is not none (lines 124-129); cam only
selects the frame iterator (lines 113-118) and is not otherwise
observable, the event list being the frames actually read. -/
def video_detect_run (openOk : Bool) (cam : Bool) (opath : Option String)
    (sh : Bool) (events : List FrameEvent) : VDResult :=
  if openOk = false then
    { readerClosed := true, writerOpened := false, writerClosed := true,
      barClosed := true, framesWritten := 0, raised := false }
  else vd_loop opath sh events 0

/-! ## BatchDriver (main, lines 274-308, and image_detect, lines 155-176) -/

inductive ItemReport
  /-- A video item whose reader opened and which streamed to completion. -/
  | videoDone
  /-- A video item that could not be opened: video_detect prints
  "Skipping file..." and returns (lines 106-111). -/
  | videoSkipped
  /-- An image item read, anonymized and saved by image_detect. -/
  | imageDone
  /-- An item whose guessed MIME type is neither video nor image:
  line 308 prints "Skipping..." and the loop continues. -/
  | unknownSkipped
deriving DecidableEq, Repr

/-- One file discovered under the input directory, abstracted by the
externally determined facts the batch loop consults: the result of
mimetypes.guess_type (none models a type that cannot be classified),
whether imageio.get_reader succeeds on it, and whether imageio.imread
succeeds on it. -/
structure BatchItem where
  mime : Option String
  videoOpensOk : Bool
  imageReadOk : Bool
deriving DecidableEq, Repr

def mimeNoneErr : String :=
  "AttributeError: NoneType object has no attribute startswith"

def imreadErr : String := "imageio.imread: could not read the image file"

/-- One iteration of the batch loop (deface.py lines 277-308).  When
guess_type returns None, line 281 calls startswith on None and the
AttributeError propagates.  Video items are guarded inside video_detect
(its open failure is caught and reported, lines 106-111).  Image items are
not guarded anywhere: an imageio.imread failure inside image_detect
(line 165) propagates. -/
def process_item (it : BatchItem) : Except String ItemReport :=
  match it.mime with
  | none => .error mimeNoneErr
  | some m =>
    if py_startswith m "video" then
      .ok (if it.videoOpensOk then .videoDone else .videoSkipped)
    else if py_startswith m "image" then
      if it.imageReadOk then .ok .imageDone else .error imreadErr
    else .ok .unknownSkipped

/-- The batch loop of main (deface.py lines 274-308): process the
discovered items in order; an exception raised by any item propagates and
ends the loop (there is no try/except around the loop body). -/
def processBatch : List BatchItem → Except String (List ItemReport)
  | [] => .ok []
  | it :: rest =>
    match process_item it with
    | .error e => .error e
    | .ok r =>
      match processBatch rest with
      | .error e => .error e
      | .ok rs => .ok (r :: rs)

/-- A concrete 4 x 4 frame of identical pixels, used as evaluation input. -/
def testFrame : Frame := List.replicate 4 (List.replicate 4 (7, 7, 7))

/-! ## Helper lemmas -/

lemma getElem?_mapIdxFrom {α β : Type} (g : ℕ → α → β) :
    ∀ (l : List α) (s i : ℕ), (mapIdxFrom g s l)[i]? = (l[i]?).map (g (s + i)) := by
  intro l
  induction l with
  | nil => intro s i; simp [mapIdxFrom]
  | cons a t ih =>
    intro s i
    cases i with
    | zero => simp [mapIdxFrom]
    | succ j =>
      have h1 : mapIdxFrom g s (a :: t) = g s a :: mapIdxFrom g (s + 1) t := rfl
      rw [h1, List.getElem?_cons_succ, ih (s + 1) j]
      have h2 : s + 1 + j = s + (j + 1) := by omega
      rw [h2, List.getElem?_cons_succ]

lemma getPx_mapPixels (g : ℕ → ℕ → Pix → Pix) (f : Frame) (r c : ℕ) :
    getPx (mapPixels g f) r c = (getPx f r c).map (g r c) := by
  unfold getPx mapPixels
  rw [getElem?_mapIdxFrom]
  cases h : f[r]? with
  | none => simp
  | some row => simp [getElem?_mapIdxFrom]

lemma draw_det_none (f : Frame) (score : ℚ) (i : ℕ) (x1 y1 x2 y2 : ℤ)
    (el : Bool) (ov : Pix) (pt : PutText) :
    draw_det f score i x1 y1 x2 y2 "none" el false ov pt = .ok f := rfl

lemma draw_det_solid (f : Frame) (score : ℚ) (i : ℕ) (x1 y1 x2 y2 : ℤ)
    (el : Bool) (ov : Pix) (pt : PutText) :
    draw_det f score i x1 y1 x2 y2 "solid" el false ov pt =
      .ok (cv2_rectangle f x1 y1 x2 y2 ov) := rfl

lemma anonymize_go_none (m : ℚ) (el : Bool) (pt : PutText) (dets : List Detection) :
    ∀ (i : ℕ) (f : Frame), anonymize_go m "none" el false pt i dets f = .ok f := by
  induction dets with
  | nil => intro i f; rfl
  | cons d rest ih =>
    intro i f
    simp only [anonymize_go, draw_det_none]
    exact ih (i + 1) f

/-! ## Claim theorems -/

/-- C5: for every frame and every nonempty detection list, anonymize_frame
with redaction mode none and annotation disabled leaves the frame
bit-identical to its input (the operation is the identity on the frame),
for any mask scale, ellipse flag and text renderer. -/
theorem C5_none_mode_identity (dets : List Detection) (frame : Frame) (m : ℚ)
    (el : Bool) (pt : PutText) (hne : dets ≠ []) :
    anonymize_frame dets frame m "none" el false pt = .ok frame :=
  anonymize_go_none m el pt dets 0 frame

/-- Witness for C5 at a concrete one-detection list and frame. -/
theorem C5_none_mode_identity_witness :
    anonymize_frame [⟨0, 0, 2, 2, 9/10⟩] testFrame (13/10) "none" true false
      (fun f _ _ _ _ => f) = .ok testFrame :=
  C5_none_mode_identity [⟨0, 0, 2, 2, 9/10⟩] testFrame (13/10) true
    (fun f _ _ _ _ => f) (List.cons_ne_nil _ _)

/-- C10: for every frame and every combination of redaction mode,
mask-scale factor, ellipse flag and annotation flag, anonymize_frame
applied to an empty detection sequence returns the frame unchanged and
performs no redactor invocation. -/
theorem C10_empty_dets_identity (frame : Frame) (m : ℚ) (rw : String)
    (el en : Bool) (pt : PutText) :
    anonymize_frame [] frame m rw el en pt = .ok frame := rfl

/-- C8: for every frame and every non-degenerate region (x1 < x2 and
y1 < y2), draw_det with mode solid succeeds and every pixel strictly
inside the region equals the overlay color. -/
theorem C8_solid_interior (f : Frame) (score : ℚ) (i : ℕ) (x1 y1 x2 y2 : ℤ)
    (el : Bool) (ov : Pix) (pt : PutText) (r c : ℕ) (p : Pix)
    (hx1 : x1 < (c : ℤ)) (hx2 : (c : ℤ) < x2)
    (hy1 : y1 < (r : ℤ)) (hy2 : (r : ℤ) < y2)
    (hp : getPx f r c = some p) :
    ∃ f2, draw_det f score i x1 y1 x2 y2 "solid" el false ov pt = Except.ok f2 ∧
      getPx f2 r c = some ov := by
  refine ⟨cv2_rectangle f x1 y1 x2 y2 ov, draw_det_solid f score i x1 y1 x2 y2 el ov pt, ?_⟩
  have hc : min x1 x2 ≤ (c : ℤ) ∧ (c : ℤ) ≤ max x1 x2 ∧
      min y1 y2 ≤ (r : ℤ) ∧ (r : ℤ) ≤ max y1 y2 :=
    ⟨le_trans (min_le_left _ _) hx1.le, le_trans hx2.le (le_max_right _ _),
     le_trans (min_le_left _ _) hy1.le, le_trans hy2.le (le_max_right _ _)⟩
  unfold cv2_rectangle
  rw [getPx_mapPixels, hp, Option.map_some', if_pos hc]

/-- Witness for C8: solid fill of the region (0,0)-(3,3) of the test
frame turns the interior pixel (1,1) into the overlay color. -/
theorem C8_solid_interior_witness :
    ∃ f2, draw_det testFrame (1/2) 0 0 0 3 3 "solid" false false (0, 0, 0)
        (fun f _ _ _ _ => f) = Except.ok f2 ∧ getPx f2 1 1 = some (0, 0, 0) :=
  C8_solid_interior testFrame (1/2) 0 0 0 3 3 false (0, 0, 0)
    (fun f _ _ _ _ => f) 1 1 (7, 7, 7) (by decide) (by decide) (by decide)
    (by decide) (by decide)

/-- C2: the claim that a zero-area region is a safe no-op in every mode is
contradicted by the code in mode blur: with x1 = x2 the blur kernel width
|x2-x1|//2 is 0 and cv2.blur raises, so draw_det propagates an error
instead of performing a no-op (mode none, by contrast, really is a no-op
on the same region). -/
theorem C2_blur_zero_area_raises :
    draw_det testFrame (1/2) 0 0 0 0 2 "blur" true false (0, 0, 0)
        (fun f _ _ _ _ => f) = Except.error blurKsizeErr ∧
    draw_det testFrame (1/2) 0 0 0 0 2 "none" true false (0, 0, 0)
        (fun f _ _ _ _ => f) = Except.ok testFrame := ⟨rfl, rfl⟩

/-- C3: the claim that a per-item failure never aborts the batch is
contradicted by the code for a corrupt image — imageio.imread raises
inside image_detect, nothing catches it, and the batch loop ends with the
exception before the remaining items run — and for a file whose content
type cannot be classified, where guess_type returns None and line 281
raises AttributeError; the same remaining valid image on its own
processes fine. -/
theorem C3_corrupt_image_aborts_batch :
    processBatch [⟨some "image/jpeg", true, false⟩, ⟨some "image/png", true, true⟩] =
      Except.error imreadErr ∧
    processBatch [⟨none, true, true⟩, ⟨some "image/png", true, true⟩] =
      Except.error mimeNoneErr ∧
    processBatch [⟨some "image/png", true, true⟩] = Except.ok [ItemReport.imageDone] :=
  ⟨rfl, rfl, rfl⟩

lemma vd_loop_clean (opath : Option String) (sh : Bool) :
    ∀ (events : List FrameEvent) (n : ℕ),
      (∀ e ∈ events, e.detOk = true ∧ e.writeOk = true) →
      (vd_loop opath sh events n).readerClosed = true ∧
      (vd_loop opath sh events n).writerClosed = (vd_loop opath sh events n).writerOpened ∧
      (vd_loop opath sh events n).barClosed = true ∧
      (vd_loop opath sh events n).raised = false := by
  intro events
  induction events with
  | nil => intro n _; exact ⟨rfl, rfl, rfl, rfl⟩
  | cons e rest ih =>
    intro n h
    have he := h e (List.mem_cons_self e rest)
    have hd : ¬ (e.detOk = false) := by simp [he.1]
    have hw : ¬ (opath.isSome = true ∧ e.writeOk = false) := by simp [he.2]
    simp only [vd_loop]
    rw [if_neg hd, if_neg hw]
    by_cases hq : sh = true ∧ e.quitKey = true
    · rw [if_pos hq]; exact ⟨rfl, rfl, rfl, rfl⟩
    · rw [if_neg hq]; exact ih _ (fun x hx => h x (List.mem_cons_of_mem e hx))

lemma vd_loop_no_writer (sh : Bool) :
    ∀ (events : List FrameEvent) (n : ℕ),
      (vd_loop none sh events n).writerOpened = false ∧
      (vd_loop none sh events n).framesWritten = n := by
  intro events
  induction events with
  | nil => intro n; exact ⟨rfl, rfl⟩
  | cons e rest ih =>
    intro n
    simp only [vd_loop]
    by_cases hd : e.detOk = false
    · rw [if_pos hd]; exact ⟨rfl, rfl⟩
    · have hw : ¬ ((none : Option String).isSome = true ∧ e.writeOk = false) := by simp
      rw [if_neg hd, if_neg hw]
      have hn : (if (none : Option String).isSome = true then n + 1 else n) = n := by simp
      rw [hn]
      by_cases hq : sh = true ∧ e.quitKey = true
      · rw [if_pos hq]; exact ⟨rfl, rfl⟩
      · rw [if_neg hq]; exact ih n

/-- C4 (amended): on the exit paths the loop actually reaches — normal
exhaustion of the frame iterator and an early user-initiated quit during
preview — the reader, the writer (when one was opened) and the progress
bar are all closed before video_detect returns; the mid-stream error path
of the original claim does not close them (see the counterexample). -/
theorem C4_closes_without_midstream_error (cam : Bool) (opath : Option String)
    (sh : Bool) (events : List FrameEvent)
    (hok : ∀ e ∈ events, e.detOk = true ∧ e.writeOk = true) :
    (video_detect_run true cam opath sh events).readerClosed = true ∧
    ((video_detect_run true cam opath sh events).writerOpened = true →
      (video_detect_run true cam opath sh events).writerClosed = true) ∧
    (video_detect_run true cam opath sh events).barClosed = true := by
  have h := vd_loop_clean opath sh events 0 hok
  exact ⟨h.1, fun hw => h.2.1.trans hw, h.2.2.1⟩

/-- Witness for C4 (amended): a two-frame run that writes one frame and
then quits from the preview still closes every handle. -/
theorem C4_closes_witness :
    (video_detect_run true false (some "out.mp4") true
        [⟨true, true, false⟩, ⟨true, true, true⟩]).readerClosed = true ∧
    ((video_detect_run true false (some "out.mp4") true
        [⟨true, true, false⟩, ⟨true, true, true⟩]).writerOpened = true →
      (video_detect_run true false (some "out.mp4") true
        [⟨true, true, false⟩, ⟨true, true, true⟩]).writerClosed = true) ∧
    (video_detect_run true false (some "out.mp4") true
        [⟨true, true, false⟩, ⟨true, true, true⟩]).barClosed = true :=
  C4_closes_without_midstream_error false (some "out.mp4") true
    [⟨true, true, false⟩, ⟨true, true, true⟩] (by decide)

/-- C4 counterexample: a failing detector call on the first frame makes
the exception propagate past the close calls of lines 149-152, so the
call returns (raises) with the reader, the opened writer and the progress
bar all still open — contradicting the claim for the mid-stream error
exit path. -/
theorem C4_cex_midstream_error_leaks :
    (video_detect_run true false (some "out.mp4") false
        [⟨false, true, false⟩]).raised = true ∧
    (video_detect_run true false (some "out.mp4") false
        [⟨false, true, false⟩]).readerClosed = false ∧
    (video_detect_run true false (some "out.mp4") false
        [⟨false, true, false⟩]).writerOpened = true ∧
    (video_detect_run true false (some "out.mp4") false
        [⟨false, true, false⟩]).writerClosed = false ∧
    (video_detect_run true false (some "out.mp4") false
        [⟨false, true, false⟩]).barClosed = false :=
  ⟨rfl, rfl, rfl, rfl, rfl⟩

/-- C9: for a camera input (name beginning with <video) and no explicit
output path, main derives no default output path, and video_detect with
opath none never opens a writer and never writes a frame, on any event
script and whether or not the source opens. -/
theorem C9_camera_no_output (ipath : String) (h : is_cam ipath = true)
    (openOk sh : Bool) (events : List FrameEvent) :
    derive_opath ipath none (is_cam ipath) = none ∧
    (video_detect_run openOk true none sh events).writerOpened = false ∧
    (video_detect_run openOk true none sh events).framesWritten = 0 := by
  refine ⟨by simp [derive_opath, h], ?_, ?_⟩
  · cases openOk with
    | false => rfl
    | true => exact (vd_loop_no_writer sh events 0).1
  · cases openOk with
    | false => rfl
    | true => exact (vd_loop_no_writer sh events 0).2

/-- Witness for C9 at the default camera device name. -/
theorem C9_camera_no_output_witness :
    derive_opath "<video0>" none (is_cam "<video0>") = none ∧
    (video_detect_run true true none true [⟨true, true, false⟩]).writerOpened = false ∧
    (video_detect_run true true none true [⟨true, true, false⟩]).framesWritten = 0 :=
  C9_camera_no_output "<video0>" rfl true true [⟨true, true, false⟩]

/-- C6: scale_bb returns the box expanded symmetrically about its center
by (m-1) times its height/width — y1 - h*(m-1), y2 + h*(m-1), analogously
for x — with each output coordinate rounded to a nearest integer (np.round
rounds halves to even, which is within 1/2 of the exact value, and is
exact on integers); for m = 1 it is the identity within rounding. -/
theorem C6_scale_bb_formula (x1 y1 x2 y2 m : ℚ) :
    scale_bb x1 y1 x2 y2 m =
      ⟨rnde (x1 - (x2 - x1) * (m - 1)), rnde (y1 - (y2 - y1) * (m - 1)),
       rnde (x2 + (x2 - x1) * (m - 1)), rnde (y2 + (y2 - y1) * (m - 1))⟩ ∧
    (∀ q : ℚ, |(rnde q : ℚ) - q| ≤ 1/2) ∧
    (∀ n : ℤ, rnde (n : ℚ) = n) ∧
    (m = 1 → scale_bb x1 y1 x2 y2 m = ⟨rnde x1, rnde y1, rnde x2, rnde y2⟩) := by
  refine ⟨rfl, rnde_abs_le, rnde_intCast, ?_⟩
  intro hm
  subst hm
  have e1 : x1 - (x2 - x1) * (1 - 1) = x1 := by ring
  have e2 : y1 - (y2 - y1) * (1 - 1) = y1 := by ring
  have e3 : x2 + (x2 - x1) * (1 - 1) = x2 := by ring
  have e4 : y2 + (y2 - y1) * (1 - 1) = y2 := by ring
  simp only [scale_bb]
  rw [e1, e2, e3, e4]

/-- Witness for C6: the m = 1 identity case evaluated at the box
(0, 0, 2, 4). -/
theorem C6_scale_bb_formula_witness :
    scale_bb 0 0 2 4 1 = ⟨rnde 0, rnde 0, rnde 2, rnde 4⟩ :=
  (C6_scale_bb_formula 0 0 2 4 1).2.2.2 rfl

/-- C7 counterexample: for the box (0, 0, 1, 1) and m = 1.1 the rounded
box returned by scale_bb is the original box itself, so the returned box
does not strictly contain the original and its height/width do not
increase. -/
theorem C7_cex_rounding_defeats_strictness :
    scale_bb 0 0 1 1 (11/10) = ⟨0, 0, 1, 1⟩ ∧
    ¬ ((scale_bb 0 0 1 1 (11/10)).x1 < 0 ∧ (scale_bb 0 0 1 1 (11/10)).y1 < 0 ∧
       1 < (scale_bb 0 0 1 1 (11/10)).x2 ∧ 1 < (scale_bb 0 0 1 1 (11/10)).y2) := by
  have hbb : scale_bb 0 0 1 1 (11/10) = ⟨0, 0, 1, 1⟩ := by
    simp only [scale_bb]
    have e1 : (0 : ℚ) - (1 - 0) * (11/10 - 1) = -1/10 := by norm_num
    have e2 : (1 : ℚ) + (1 - 0) * (11/10 - 1) = 11/10 := by norm_num
    rw [e1, e2, rnde_eq (-1/10) 0 (by norm_num) (by norm_num),
      rnde_eq (11/10) 1 (by norm_num) (by norm_num)]
  refine ⟨hbb, ?_⟩
  rw [hbb]
  decide

/-- C7 (amended): for every box with positive width and height and every
m > 1, the exact (pre-rounding) box computed by scale_bb strictly
contains the original, its width and height increase by exactly
2*w*(m-1) and 2*h*(m-1), and each integer coordinate actually returned is
within 1/2 of the exact value (strict containment can be lost to
rounding, as the counterexample shows). -/
theorem C7_amended_exact_containment (x1 y1 x2 y2 m : ℚ)
    (hx : x1 < x2) (hy : y1 < y2) (hm : 1 < m) :
    scale_bb x1 y1 x2 y2 m =
      ⟨rnde (x1 - (x2 - x1) * (m - 1)), rnde (y1 - (y2 - y1) * (m - 1)),
       rnde (x2 + (x2 - x1) * (m - 1)), rnde (y2 + (y2 - y1) * (m - 1))⟩ ∧
    (x1 - (x2 - x1) * (m - 1) < x1 ∧ x2 < x2 + (x2 - x1) * (m - 1) ∧
     y1 - (y2 - y1) * (m - 1) < y1 ∧ y2 < y2 + (y2 - y1) * (m - 1)) ∧
    ((x2 + (x2 - x1) * (m - 1)) - (x1 - (x2 - x1) * (m - 1)) =
      (x2 - x1) + 2 * (x2 - x1) * (m - 1)) ∧
    ((y2 + (y2 - y1) * (m - 1)) - (y1 - (y2 - y1) * (m - 1)) =
      (y2 - y1) + 2 * (y2 - y1) * (m - 1)) ∧
    |((scale_bb x1 y1 x2 y2 m).x1 : ℚ) - (x1 - (x2 - x1) * (m - 1))| ≤ 1/2 ∧
    |((scale_bb x1 y1 x2 y2 m).y1 : ℚ) - (y1 - (y2 - y1) * (m - 1))| ≤ 1/2 ∧
    |((scale_bb x1 y1 x2 y2 m).x2 : ℚ) - (x2 + (x2 - x1) * (m - 1))| ≤ 1/2 ∧
    |((scale_bb x1 y1 x2 y2 m).y2 : ℚ) - (y2 + (y2 - y1) * (m - 1))| ≤ 1/2 := by
  have hw : 0 < (x2 - x1) * (m - 1) := mul_pos (by linarith) (by linarith)
  have hh : 0 < (y2 - y1) * (m - 1) := mul_pos (by linarith) (by linarith)
  exact ⟨rfl, ⟨by linarith, by linarith, by linarith, by linarith⟩, by ring, by ring,
    rnde_abs_le _, rnde_abs_le _, rnde_abs_le _, rnde_abs_le _⟩

/-- Witness for C7 (amended): the exact strict-containment part at the
box (0, 0, 10, 10) with m = 2. -/
theorem C7_amended_witness :
    (0 : ℚ) - (10 - 0) * (2 - 1) < 0 ∧ (10 : ℚ) < 10 + (10 - 0) * (2 - 1) ∧
    (0 : ℚ) - (10 - 0) * (2 - 1) < 0 ∧ (10 : ℚ) < 10 + (10 - 0) * (2 - 1) :=
  (C7_amended_exact_containment 0 0 10 10 2 (by norm_num) (by norm_num)
    (by norm_num)).2.1

/-- C1 counterexample: a detection box lying entirely to the right of a
10 x 10 frame (x1 = 20, x2 = 22) with mask scale 1 is clipped to
x1 = 20, x2 = 9 — x1 is never clamped from above nor x2 from below on
lines 74-75 — so the claimed invariant 0 ≤ x1 ≤ x2 < frame_width fails. -/
theorem C1_cex_offframe_detection :
    ¬ (0 ≤ (det_region 10 10 20 2 22 4 1).x1 ∧
       (det_region 10 10 20 2 22 4 1).x1 ≤ (det_region 10 10 20 2 22 4 1).x2 ∧
       (det_region 10 10 20 2 22 4 1).x2 < ((10 : ℕ) : ℤ) ∧
       0 ≤ (det_region 10 10 20 2 22 4 1).y1 ∧
       (det_region 10 10 20 2 22 4 1).y1 ≤ (det_region 10 10 20 2 22 4 1).y2 ∧
       (det_region 10 10 20 2 22 4 1).y2 < ((10 : ℕ) : ℤ)) := by
  have hd : det_region 10 10 20 2 22 4 1 = ⟨20, 2, 9, 4⟩ := by
    simp only [det_region, scale_bb]
    have e1 : ((20 : ℤ) : ℚ) - (((22 : ℤ) : ℚ) - ((20 : ℤ) : ℚ)) * (1 - 1) = 20 := by
      norm_num
    have e2 : ((2 : ℤ) : ℚ) - (((4 : ℤ) : ℚ) - ((2 : ℤ) : ℚ)) * (1 - 1) = 2 := by
      norm_num
    have e3 : ((22 : ℤ) : ℚ) + (((22 : ℤ) : ℚ) - ((20 : ℤ) : ℚ)) * (1 - 1) = 22 := by
      norm_num
    have e4 : ((4 : ℤ) : ℚ) + (((4 : ℤ) : ℚ) - ((2 : ℤ) : ℚ)) * (1 - 1) = 4 := by
      norm_num
    rw [e1, e2, e3, e4, rnde_eq 20 20 (by norm_num) (by norm_num),
      rnde_eq 2 2 (by norm_num) (by norm_num),
      rnde_eq 22 22 (by norm_num) (by norm_num),
      rnde_eq 4 4 (by norm_num) (by norm_num)]
    decide
  rw [hd]
  decide

/-- C1 (amended): for every detection whose integer box already lies
within the frame (0 ≤ x1 ≤ x2 ≤ W-1, 0 ≤ y1 ≤ y2 ≤ H-1) and every mask
scale m ≥ 1, the region obtained by scaling and clipping in
anonymize_frame satisfies 0 ≤ x1 ≤ x2 < W and 0 ≤ y1 ≤ y2 < H; for boxes
outside the frame the invariant can fail (see the counterexample). -/
theorem C1_amended_clip_invariant (H W : ℕ) (x1 y1 x2 y2 : ℤ) (m : ℚ)
    (hx1 : 0 ≤ x1) (hx12 : x1 ≤ x2) (hx2 : x2 ≤ (W : ℤ) - 1)
    (hy1 : 0 ≤ y1) (hy12 : y1 ≤ y2) (hy2 : y2 ≤ (H : ℤ) - 1)
    (hm : 1 ≤ m) :
    0 ≤ (det_region H W x1 y1 x2 y2 m).x1 ∧
    (det_region H W x1 y1 x2 y2 m).x1 ≤ (det_region H W x1 y1 x2 y2 m).x2 ∧
    (det_region H W x1 y1 x2 y2 m).x2 < (W : ℤ) ∧
    0 ≤ (det_region H W x1 y1 x2 y2 m).y1 ∧
    (det_region H W x1 y1 x2 y2 m).y1 ≤ (det_region H W x1 y1 x2 y2 m).y2 ∧
    (det_region H W x1 y1 x2 y2 m).y2 < (H : ℤ) := by
  have hs : (0 : ℚ) ≤ m - 1 := by linarith
  have hwq : (0 : ℚ) ≤ (x2 : ℚ) - (x1 : ℚ) := by
    have h := hx12
    have h2 : (x1 : ℚ) ≤ (x2 : ℚ) := by exact_mod_cast h
    linarith
  have hhq : (0 : ℚ) ≤ (y2 : ℚ) - (y1 : ℚ) := by
    have h2 : (y1 : ℚ) ≤ (y2 : ℚ) := by exact_mod_cast hy12
    linarith
  have hX1 : rnde ((x1 : ℚ) - ((x2 : ℚ) - (x1 : ℚ)) * (m - 1)) ≤ x1 :=
    rnde_le_of_le _ _ (by nlinarith [mul_nonneg hwq hs])
  have hX2 : x2 ≤ rnde ((x2 : ℚ) + ((x2 : ℚ) - (x1 : ℚ)) * (m - 1)) :=
    le_rnde_of_le _ _ (by nlinarith [mul_nonneg hwq hs])
  have hY1 : rnde ((y1 : ℚ) - ((y2 : ℚ) - (y1 : ℚ)) * (m - 1)) ≤ y1 :=
    rnde_le_of_le _ _ (by nlinarith [mul_nonneg hhq hs])
  have hY2 : y2 ≤ rnde ((y2 : ℚ) + ((y2 : ℚ) - (y1 : ℚ)) * (m - 1)) :=
    le_rnde_of_le _ _ (by nlinarith [mul_nonneg hhq hs])
  simp only [det_region, scale_bb]
  refine ⟨le_max_left 0 _, ?_, ?_, le_max_left 0 _, ?_, ?_⟩
  · exact le_trans (max_le hx1 hX1) (le_trans hx12 (le_min hx2 hX2))
  · exact lt_of_le_of_lt (min_le_left _ _) (by omega)
  · exact le_trans (max_le hy1 hY1) (le_trans hy12 (le_min hy2 hY2))
  · exact lt_of_le_of_lt (min_le_left _ _) (by omega)

/-- Witness for C1 (amended): the in-frame box (1, 1, 3, 3) in a 10 x 10
frame with the default mask scale 1.3. -/
theorem C1_amended_clip_invariant_witness :
    0 ≤ (det_region 10 10 1 1 3 3 (13/10)).x1 ∧
    (det_region 10 10 1 1 3 3 (13/10)).x1 ≤ (det_region 10 10 1 1 3 3 (13/10)).x2 ∧
    (det_region 10 10 1 1 3 3 (13/10)).x2 < ((10 : ℕ) : ℤ) ∧
    0 ≤ (det_region 10 10 1 1 3 3 (13/10)).y1 ∧
    (det_region 10 10 1 1 3 3 (13/10)).y1 ≤ (det_region 10 10 1 1 3 3 (13/10)).y2 ∧
    (det_region 10 10 1 1 3 3 (13/10)).y2 < ((10 : ℕ) : ℤ) :=
  C1_amended_clip_invariant 10 10 1 1 3 3 (13/10) (by norm_num) (by norm_num)
    (by norm_num) (by norm_num) (by norm_num) (by norm_num) (by norm_num)

end Deface
